import Mathlib

/-!
Verification model of the Coffee-Chatbot frontend core
(`src/frontend/src/utils/orderExtractor.ts`, the cart context, the chat room
order-processing component and the RunPod polling client).

JavaScript runtime values are modelled by the inductive `JSValue`; numbers are
modelled as integers (every number a claim touches is an integral quantity,
price or HTTP status; no claim depends on fractional or floating-point
behaviour).  Functions that can raise a JavaScript exception are modelled in
the `Except Unit` monad; a surrounding `try/catch` is modelled by matching on
the result.  `Math.random()` draws are modelled by an explicit stream of
naturals (`Nat → Nat`), each draw reduced modulo the array length it indexes,
mirroring `Math.floor(Math.random() * arr.length)`.
-/

namespace CoffeeChat

/-- Model of a JavaScript/JSON runtime value. `undefined` is JavaScript
`undefined`, distinct from `null`. -/
inductive JSValue where
  | undefined : JSValue
  | null : JSValue
  | bool (b : Bool) : JSValue
  | num (n : Int) : JSValue
  | str (s : String) : JSValue
  | arr (elems : List JSValue) : JSValue
  | obj (fields : List (String × JSValue)) : JSValue

/-- A JavaScript number that may be `NaN`, as produced by `Number(x)`. -/
inductive JSNum where
  | nan : JSNum
  | int (n : Int) : JSNum
deriving DecidableEq

/-- JavaScript truthiness of a value. -/
def JSValue.truthy : JSValue → Bool
  | .undefined => false
  | .null => false
  | .bool b => b
  | .num n => n != 0
  | .str s => s != ""
  | .arr _ => true
  | .obj _ => true

/-- Is the value `undefined` or `null` (the values property access throws on). -/
def JSValue.isNullish : JSValue → Bool
  | .undefined => true
  | .null => true
  | _ => false

/-- `Array.isArray`. -/
def JSValue.isArray : JSValue → Bool
  | .arr _ => true
  | _ => false

/-- First field of the given name in an object literal, or `undefined`. -/
def lookupField : List (String × JSValue) → String → JSValue
  | [], _ => .undefined
  | (k, v) :: fs, key => if k == key then v else lookupField fs key

/-- Property access `base.key` on a value already known not to be nullish:
objects yield their field, every other value yields `undefined` (none of the
modelled accesses names a built-in property of a primitive). -/
def JSValue.getProp : JSValue → String → JSValue
  | .obj fields, key => lookupField fields key
  | _, _ => .undefined

/-- Property access `base.key` that throws a `TypeError` when the base is
`null` or `undefined`. -/
def JSValue.get : JSValue → String → Except Unit JSValue
  | .undefined, _ => .error ()
  | .null, _ => .error ()
  | v, key => .ok (v.getProp key)

/-- Optional chain `base?.k1?.k2…`: each step short-circuits a nullish base to
`undefined` instead of throwing. -/
def JSValue.chain : JSValue → List String → JSValue
  | v, [] => v
  | v, key :: keys => if v.isNullish then .undefined else JSValue.chain (v.getProp key) keys

/-- Strict equality `v === 'lit'` against a string literal. -/
def JSValue.strictEqStr : JSValue → String → Bool
  | .str t, s => t == s
  | _, _ => false

mutual

/-- `String()` conversion of a value (array elements that are nullish render
as the empty string, per `Array.prototype.join`). -/
def jsToString : JSValue → String
  | .undefined => "undefined"
  | .null => "null"
  | .bool b => cond b "true" "false"
  | .num n => toString n
  | .str s => s
  | .arr xs => jsToStringElems xs
  | .obj _ => "[object Object]"

def jsToStringElems : List JSValue → String
  | [] => ""
  | [v] => if v.isNullish then "" else jsToString v
  | v :: vs => (if v.isNullish then "" else jsToString v) ++ "," ++ jsToStringElems vs

end

/-- `String.prototype.trim`: strip whitespace from both ends. -/
def jsTrim (s : String) : String :=
  String.mk (((s.data.dropWhile Char.isWhitespace).reverse.dropWhile
    Char.isWhitespace).reverse)

/-- `String.prototype.toLowerCase` (ASCII model). -/
def jsToLower (s : String) : String :=
  String.mk (s.data.map Char.toLower)

/-- Decimal-integer parse underlying `Number(string)`: the whitespace-only
string is `0`, an optionally signed digit string is its value, anything else
is `NaN` (fractional/hex/exponent forms do not arise in the integer-valued
model). -/
def strToNumber (s : String) : JSNum :=
  let t := jsTrim s
  if t == "" then .int 0
  else
    let (sign, digits) :=
      match t.data with
      | '-' :: rest => ((-1 : Int), rest)
      | l => ((1 : Int), l)
    if digits ≠ [] ∧ digits.all Char.isDigit then
      .int (sign * (digits.foldl (fun acc c => acc * 10 + (c.toNat - 48)) 0 : Nat))
    else .nan

/-- `Number(v)` conversion. -/
def jsToNumber : JSValue → JSNum
  | .undefined => .nan
  | .null => .int 0
  | .bool b => .int (cond b 1 0)
  | .num n => .int n
  | .str s => strToNumber s
  | .arr xs => strToNumber (jsToStringElems xs)
  | .obj _ => .nan

/-- Substring containment, the semantics of `String.prototype.includes`. -/
def jsIncludes (hay sub : String) : Bool :=
  decide (sub.data <:+: hay.data)

/-- Maximal non-whitespace runs of a character list, in order. -/
def wsTokensAux (acc : List Char) : List Char → List String
  | [] => if acc.isEmpty then [] else [String.mk acc.reverse]
  | c :: cs =>
    if c.isWhitespace then
      (if acc.isEmpty then [] else [String.mk acc.reverse]) ++ wsTokensAux [] cs
    else wsTokensAux (c :: acc) cs

/-- `s.split(/\s+/)`: the empty string yields `[""]`; otherwise the
whitespace-separated tokens, with an extra empty piece at an end that begins
or ends with whitespace. -/
def jsSplitWs (s : String) : List String :=
  if s.data.isEmpty then [""]
  else
    (if (s.data.head?.map Char.isWhitespace).getD false then [""] else [])
      ++ wsTokensAux [] s.data
      ++ (if (s.data.getLast?.map Char.isWhitespace).getD false then [""] else [])

example : jsSplitWs "mocha latte" = ["mocha", "latte"] := by decide
example : jsSplitWs "" = [""] := by decide
example : jsSplitWs " iced  tea " = ["", "iced", "tea", ""] := by decide

/-- One character of `JSON.stringify` string escaping. -/
def jsonEscapeChar (c : Char) : String :=
  if c = '"' then "\\\""
  else if c = '\\' then "\\\\"
  else if c = '\n' then "\\n"
  else if c = '\r' then "\\r"
  else if c = '\t' then "\\t"
  else if c.toNat < 32 then "\\u00" ++ (Nat.toDigits 16 c.toNat).asString
  else String.mk [c]

/-- `JSON.stringify` of a string. -/
def jsonEscape (s : String) : String :=
  "\"" ++ String.join (s.data.map jsonEscapeChar) ++ "\""

mutual

/-- `JSON.stringify`: `undefined` is omitted from objects (`none`), rendered
`null` inside arrays. -/
def jsonStringify : JSValue → Option String
  | .undefined => none
  | .null => some "null"
  | .bool b => some (cond b "true" "false")
  | .num n => some (toString n)
  | .str s => some (jsonEscape s)
  | .arr xs => some ("[" ++ String.intercalate "," (jsonStringifyElems xs) ++ "]")
  | .obj fs => some ("\x7b" ++ String.intercalate "," (jsonStringifyFields fs) ++ "\x7d")

def jsonStringifyElems : List JSValue → List String
  | [] => []
  | v :: vs => (jsonStringify v).getD "null" :: jsonStringifyElems vs

def jsonStringifyFields : List (String × JSValue) → List String
  | [] => []
  | (k, v) :: fs =>
    match jsonStringify v with
    | none => jsonStringifyFields fs
    | some sv => (jsonEscape k ++ ":" ++ sv) :: jsonStringifyFields fs

end

/-- `JSON.stringify` of a possibly-`NaN` number (`NaN` serialises as `null`). -/
def jsNumJson : JSNum → String
  | .nan => "null"
  | .int n => toString n

end CoffeeChat

namespace CoffeeChat

/-! ## Data model (`types.ts`) -/

/-- A catalog product (`Product` in `types.ts`); `description` is optional in
the source and is modelled as a string whose truthiness is non-emptiness. -/
structure Product where
  id : String
  name : String
  price : Int
  description : String
deriving DecidableEq

/-- A cart line (`CartItem` in `types.ts`). -/
structure CartItem where
  product : Product
  quantity : Int
deriving DecidableEq

/-- An extracted order line (`OrderItem` in `orderExtractor.ts`).  At runtime
the `price` field merely carries whatever JSON value the API supplied, so it
is kept as a `JSValue`; `quantity` went through `Number(·)` and may be `NaN`. -/
structure OrderItem where
  item : String
  price : JSValue
  quantity : JSNum

/-! ## `orderExtractor.ts` -/

/-- The three nested response locations probed by `extractOrderFromMemory`:
`output.memory.order`, `memory.order`, `data.memory.order`.  Returns the first
location holding a truthy array value. -/
def findOrderArray (responseData : JSValue) : Option (List JSValue) :=
  let loc1 := responseData.chain ["output", "memory", "order"]
  let loc2 := responseData.chain ["memory", "order"]
  let loc3 := responseData.chain ["data", "memory", "order"]
  match loc1 with
  | .arr xs => if loc1.truthy then some xs else none
  | _ =>
    match loc2 with
    | .arr xs => if loc2.truthy then some xs else none
    | _ =>
      match loc3 with
      | .arr xs => if loc3.truthy then some xs else none
      | _ => none

/-- An order item after the `map` normalisation step but before the `filter`:
the `item` field is still an arbitrary JSValue. -/
structure PreOrderItem where
  item : JSValue
  price : JSValue
  quantity : JSNum

/-- The `map` body of `extractOrderFromMemory`: `item: item.item || item.name
|| ''`, `price: item.price || 0`, `quantity: present ? Number(q) : 1`.
Property access throws on a nullish array element. -/
def normalizeRawItem (v : JSValue) : Except Unit PreOrderItem :=
  match v.get "item" with
  | .error e => .error e
  | .ok itemField =>
    match
      (if itemField.truthy then .ok itemField
       else
         match v.get "name" with
         | .error e => .error e
         | .ok nameField => .ok (if nameField.truthy then nameField else .str "")
       : Except Unit JSValue) with
    | .error e => .error e
    | .ok itemVal =>
      match v.get "price" with
      | .error e => .error e
      | .ok priceField =>
        match v.get "quantity" with
        | .error e => .error e
        | .ok quantityField =>
          .ok ⟨itemVal,
            if priceField.truthy then priceField else .num 0,
            if quantityField.isNullish then .int 1 else jsToNumber quantityField⟩

/-- The `map` step over the raw array (a thrown `TypeError` propagates). -/
def normalizeRawItems : List JSValue → Except Unit (List PreOrderItem)
  | [] => .ok []
  | v :: vs =>
    match normalizeRawItem v with
    | .error e => .error e
    | .ok p =>
      match normalizeRawItems vs with
      | .error e => .error e
      | .ok ps => .ok (p :: ps)

/-- The `filter` predicate `item.item && item.item.trim() !== ''`; calling
`.trim()` on a truthy non-string throws a `TypeError`.  A surviving item
therefore has a string name, which is extracted here. -/
def filterNormalizedItems : List PreOrderItem → Except Unit (List OrderItem)
  | [] => .ok []
  | p :: ps =>
    match filterNormalizedItems ps with
    | .error e => .error e
    | .ok rest =>
      if p.item.truthy then
        match p.item with
        | .str s => .ok (if jsTrim s != "" then ⟨s, p.price, p.quantity⟩ :: rest else rest)
        | _ => .error ()
      else .ok rest

/-- `extractOrderFromMemory` (`orderExtractor.ts:18`): probe the three memory
locations, normalise each raw item, drop items with an empty or blank name;
the enclosing `try/catch` turns any thrown exception into `[]`. -/
def extractOrderFromMemory (responseData : JSValue) : List OrderItem :=
  let rawOrderItems := (findOrderArray responseData).getD []
  match normalizeRawItems rawOrderItems with
  | .error _ => []
  | .ok normalized =>
    match filterNormalizedItems normalized with
    | .error _ => []
    | .ok items => items

/-- Tier (a) of the matching policy: exact case-insensitive name match. -/
def exactMatchPred (itemName : String) (p : Product) : Bool :=
  jsToLower p.name == itemName

/-- Tier (b): substring containment in either direction. -/
def partialMatchPred (itemName : String) (p : Product) : Bool :=
  jsIncludes (jsToLower p.name) itemName || jsIncludes itemName (jsToLower p.name)

/-- Tier (c): some word of the mention and some word of the catalog name
contain one another. -/
def wordMatchPred (itemName : String) (p : Product) : Bool :=
  let itemWords := jsSplitWs itemName
  (itemWords.any fun word =>
    (jsSplitWs (jsToLower p.name)).any fun pWord =>
      jsIncludes pWord word || jsIncludes word pWord)

/-- `matchOrderItemToProduct` (`orderExtractor.ts:51`): try the exact, then the
partial, then the word-based tier, each with `Array.prototype.find` (first
element satisfying the predicate). -/
def matchOrderItemToProduct (orderItem : OrderItem) (products : List Product) :
    Option Product :=
  let itemName := jsTrim (jsToLower orderItem.item)
  match products.find? (exactMatchPred itemName) with
  | some m => some m
  | none =>
    match products.find? (partialMatchPred itemName) with
    | some m => some m
    | none =>
      match products.find? (wordMatchPred itemName) with
      | some m => some m
      | none => none

/-- The fixed completion phrase list of `isOrderCompletion`. -/
def completionPhrases : List String :=
  ["that will be all", "that\x27s all", "that is all", "all done", "i\x27m done",
   "finish order", "complete order", "place order", "checkout",
   "proceed to checkout", "confirm order", "finalize order", "submit order",
   "buy now", "order now", "yes place order", "yes checkout",
   "yes that\x27s all", "yes that will be all"]

/-- `isOrderCompletion` (`orderExtractor.ts:80`): does the lowercased, trimmed
message contain one of the fixed completion phrases. -/
def isOrderCompletion (message : String) : Bool :=
  let lowerMessage := jsTrim (jsToLower message)
  completionPhrases.any fun phrase => jsIncludes lowerMessage phrase

end CoffeeChat

namespace CoffeeChat

/-! ## `CartContext.tsx` -/

/-- `addToCart` (`CartContext.tsx`): if a line with the same product id exists,
bump its quantity by the added quantity (no second line); otherwise append one
new line. -/
def addToCart (cart : List CartItem) (product : Product) (quantity : Int) :
    List CartItem :=
  match cart.find? (fun item => item.product.id == product.id) with
  | some existingItem =>
    let newQuantity := existingItem.quantity + quantity
    cart.map fun item =>
      if item.product.id == product.id then { item with quantity := newQuantity }
      else item
  | none => cart ++ [{ product := product, quantity := quantity }]

/-- `removeFromCart` (`CartContext.tsx`): drop every line of the product. -/
def removeFromCart (cart : List CartItem) (productId : String) : List CartItem :=
  cart.filter fun item => item.product.id != productId

/-- `updateQuantity` (`CartContext.tsx`): a non-positive quantity removes the
line, a positive one replaces the line's quantity. -/
def updateQuantity (cart : List CartItem) (productId : String) (quantity : Int) :
    List CartItem :=
  if quantity ≤ 0 then removeFromCart cart productId
  else
    cart.map fun item =>
      if item.product.id == productId then { item with quantity := quantity }
      else item

/-- Carts reachable from the empty cart through `addToCart`. -/
inductive ReachableCart : List CartItem → Prop where
  | nil : ReachableCart []
  | add (cart : List CartItem) (product : Product) (quantity : Int) :
      ReachableCart cart → ReachableCart (addToCart cart product quantity)

/-! ## `ChatRoom.tsx`: order processing from memory -/

/-- The quantity used throughout `ChatRoom.tsx`:
`item.quantity && item.quantity > 0 ? item.quantity : 1` (a missing, `NaN`,
zero or negative quantity becomes 1). -/
def normQtyInt (q : JSNum) : Int :=
  match q with
  | .int n => if n ≠ 0 ∧ 0 < n then n else 1
  | .nan => 1

/-- The normalisation applied to each order item before hashing. -/
def normalizeOrderItem (i : OrderItem) : OrderItem :=
  { i with quantity := .int (normQtyInt i.quantity) }

/-- The dedup key `` `${item.item.toLowerCase()}-${qty}` ``. -/
def orderItemKey (i : OrderItem) : String :=
  jsToLower i.item ++ "-" ++ toString (normQtyInt i.quantity)

/-- The processed-orders key `` `${product.id}-${quantity}` ``. -/
def cartItemKey (productId : String) (quantity : Int) : String :=
  productId ++ "-" ++ toString quantity

/-- `JSON.stringify` of one normalised order item
(`{"item":…,"price":…,"quantity":…}`). -/
def stringifyOrderItem (i : OrderItem) : String :=
  "\x7b" ++ String.intercalate ","
      (jsonStringifyFields [("item", .str i.item), ("price", i.price)]
        ++ [jsonEscape "quantity" ++ ":" ++ jsNumJson i.quantity])
    ++ "\x7d"

/-- `JSON.stringify` of the normalised order list — the order hash. -/
def stringifyOrderItems (items : List OrderItem) : String :=
  "[" ++ String.intercalate "," (items.map stringifyOrderItem) ++ "]"

/-- The `ChatRoom` component state touched by order processing.
`lastOrderHash` models `lastOrderHashRef.current` (initially `''`);
`lastOrderItems` carries the value `JSON.parse(lastOrderHash)` yields, kept
alongside the hash (string and integer fields round-trip through
`JSON.stringify`/`JSON.parse` unchanged, and only those fields feed the dedup
keys); `processedOrders` models the `processedOrders` set. -/
structure ChatState where
  lastOrderHash : String
  lastOrderItems : List OrderItem
  processedOrders : List String
  cart : List CartItem

/-- The initial `ChatRoom` state: empty hash, empty processed set, empty cart. -/
def initialChatState : ChatState :=
  { lastOrderHash := "", lastOrderItems := [], processedOrders := [], cart := [] }

/-- The body of the `for` loop of `processOrdersFromMemory`.  The membership
checks read the render-time snapshots `processed₀` (`processedOrders.has`) and
`cart₀` (`cartItems.some`), while the updates accumulate through the
functional `setProcessedOrders`/`setCartItems` updaters. -/
def processOrderLoop (products : List Product) (processed₀ : List String)
    (cart₀ : List CartItem) :
    List String × List CartItem → List OrderItem → List String × List CartItem
  | acc, [] => acc
  | acc, orderItem :: rest =>
    let quantity := normQtyInt orderItem.quantity
    match matchOrderItemToProduct orderItem products with
    | some product =>
      let itemKey := cartItemKey product.id quantity
      let isAlreadyInCart :=
        cart₀.any fun item => item.product.id == product.id && quantity ≤ item.quantity
      if !(processed₀.contains itemKey) && !isAlreadyInCart then
        processOrderLoop products processed₀ cart₀
          (acc.1 ++ [itemKey], addToCart acc.2 product quantity) rest
      else processOrderLoop products processed₀ cart₀ acc rest
    | none => processOrderLoop products processed₀ cart₀ acc rest

/-- `processOrdersFromMemory` (`ChatRoom.tsx:565`): hash the normalised order;
an unchanged hash is a no-op; otherwise add to the cart the items that were
not in the previous order, skipping already-processed or already-in-cart
items. -/
def processOrdersFromMemory (products : List Product) (s : ChatState)
    (orderItems : List OrderItem) : ChatState :=
  let normalizedItems := orderItems.map normalizeOrderItem
  let orderHash := stringifyOrderItems normalizedItems
  if orderHash == s.lastOrderHash then s
  else
    let previousOrderItems := if s.lastOrderHash == "" then [] else s.lastOrderItems
    let previousItemsSet := previousOrderItems.map orderItemKey
    let newItems := orderItems.filter fun i => !(previousItemsSet.contains (orderItemKey i))
    let result :=
      processOrderLoop products s.processedOrders s.cart (s.processedOrders, s.cart) newItems
    { lastOrderHash := orderHash, lastOrderItems := normalizedItems,
      processedOrders := result.1, cart := result.2 }

end CoffeeChat

namespace CoffeeChat

/-! ## `ChatRoom.tsx`: informational query handlers and response templates -/

/-- `price.toFixed(2)` for the integral prices of the model. -/
def toFixed2 (n : Int) : String := toString n ++ ".00"

/-- `isRecommendationQuery`: keyword match over the lowercased message. -/
def isRecommendationQuery (message : String) : Bool :=
  let lowerMessage := jsToLower message
  (["recommend", "popular", "best", "favorite", "suggest", "what do you have",
    "what\x27s available", "what can i get"].any fun keyword =>
      jsIncludes lowerMessage keyword)

/-- `isPriceQuery`: keyword match over the lowercased message. -/
def isPriceQuery (message : String) : Bool :=
  let lowerMessage := jsToLower message
  (["price", "cost", "how much", "what does", "what\x27s the price",
    "how much does", "how much is"].any fun keyword =>
      jsIncludes lowerMessage keyword)

/-- `extractProductNameFromQuery`: first product whose lowercased name occurs
in the lowercased message. -/
def extractProductNameFromQuery (message : String) (products : List Product) :
    Option Product :=
  let lowerMessage := jsToLower message
  products.find? fun product => jsIncludes lowerMessage (jsToLower product.name)

/-- The top-5 list of `generateRecommendationResponse`: products sorted by
price descending (stable sort, as `Array.prototype.sort`), first five. -/
def popularItems (products : List Product) : List Product :=
  (List.insertionSort (fun a b : Product => b.price ≤ a.price) products).take 5

/-- Format variation 1 for the recommended item list. -/
def recFormat1 (items : List Product) : String :=
  String.intercalate "\n\n" <| items.enum.map fun p =>
    toString (p.1 + 1) ++ ". **" ++ p.2.name ++ "** - $" ++ toFixed2 p.2.price
      ++ (if p.2.description != "" then " - " ++ p.2.description else "")

/-- Format variation 2 for the recommended item list. -/
def recFormat2 (items : List Product) : String :=
  String.intercalate "\n" <| items.map fun item =>
    "• **" ++ item.name ++ "** | $" ++ toFixed2 item.price
      ++ (if item.description != "" then "\n   " ++ item.description else "")

/-- Format variation 3 for the recommended item list. -/
def recFormat3 (items : List Product) : String :=
  String.intercalate "\n" <| items.map fun item =>
    "→ " ++ item.name
      ++ (if item.description != "" then " (" ++ item.description ++ ")" else "")
      ++ " — $" ++ toFixed2 item.price

/-- Format variation 4 for the recommended item list. -/
def recFormat4 (items : List Product) : String :=
  String.intercalate "\n\n" <| items.map fun item =>
    "**" ++ item.name ++ "**\n   Price: $" ++ toFixed2 item.price
      ++ (if item.description != "" then "\n   " ++ item.description else "")

/-- Format variation 5 for the recommended item list. -/
def recFormat5 (items : List Product) : String :=
  String.intercalate "\n" <| items.enum.map fun p =>
    "[" ++ toString (p.1 + 1) ++ "] " ++ p.2.name ++ " — $" ++ toFixed2 p.2.price
      ++ (if p.2.description != "" then " | " ++ p.2.description else "")

/-- The fixed reply when no product data is loaded. -/
def noProductsMessage : String :=
  "I\x27m sorry, I don\x27t have product information available at the moment. Please check back later!"

/-- The 15 phrasing templates of `generateRecommendationResponse`, each
rendering the same item list through one of the five formats. -/
def recommendationTemplates (items : List Product) : List String :=
  ["Here\x27s what\x27s hot right now:\n\n" ++ recFormat1 items ++ "\n\nInterested in any of these?",
   "Top picks from our menu:\n\n" ++ recFormat2 items ++ "\n\nWhich one catches your eye?",
   "Customer favorites:\n\n" ++ recFormat3 items ++ "\n\nWant details on any of these?",
   "Our most popular items:\n\n" ++ recFormat4 items
     ++ "\n\nCurious about any of them?\n\nFeel free to ask!",
   "Best sellers:\n\n" ++ recFormat5 items
     ++ "\n\nWhat would you like to know?\n\nI\x27m here to help.",
   "🔥 Trending items:\n\n" ++ recFormat1 items
     ++ "\n\nWhich one interests you?\n\nThey\x27re all great choices!",
   "Here are some top recommendations:\n\n" ++ recFormat2 items
     ++ "\n\nFeel free to ask me anything!\n\nI can give you more details on any item.\n\nWhat catches your eye?",
   "Popular choices:\n\n" ++ recFormat3 items
     ++ "\n\nWant to learn more?\n\nEach one has something special.\n\nWhich one sounds good to you?",
   "Our regulars love these:\n\n" ++ recFormat4 items
     ++ "\n\nWhat questions do you have?\n\nI\x27m happy to help you decide.\n\nJust let me know!",
   "Top-rated items:\n\n" ++ recFormat5 items
     ++ "\n\nI can tell you more about any of them.\n\nThese are consistently our bestsellers.\n\nCustomers keep coming back for these.\n\nWhat would you like to know?",
   "⭐ Customer favorites:\n\n" ++ recFormat1 items
     ++ "\n\nWhich one sounds good?\n\nThey\x27re all made with care.\n\nOur team takes pride in each one.\n\nWant to hear more about any?",
   "Here\x27s what people are ordering:\n\n" ++ recFormat2 items
     ++ "\n\nInterested in any?\n\nThese are the ones that get rave reviews.\n\nPeople love the quality and taste.\n\nWhat would you like to try?",
   "Most popular right now:\n\n" ++ recFormat3 items
     ++ "\n\nWant more info?\n\nI can share details about ingredients.\n\nOr tell you about preparation methods.\n\nJust ask!",
   "Best of the menu:\n\n" ++ recFormat4 items
     ++ "\n\nWhat would you like to know?\n\nEach item is carefully crafted.\n\nWe use premium ingredients.\n\nWhich one interests you most?",
   "Top sellers this week:\n\n" ++ recFormat5 items
     ++ "\n\nCurious about any?\n\nThese have been flying off the shelves.\n\nOur customers can\x27t get enough.\n\nWant to know why they\x27re so popular?"]

/-- `generateRecommendationResponse` (`ChatRoom.tsx:696`), with the
`Math.random()` template pick modelled by `r` reduced modulo the template
count. -/
def generateRecommendationResponse (products : List Product) (r : Nat) : String :=
  if products.length == 0 then noProductsMessage
  else
    let responses := recommendationTemplates (popularItems products)
    responses.getD (r % responses.length) ""

/-- The 16 phrasing templates of `generatePriceResponse`. -/
def priceTemplates (product : Product) : List String :=
  let description :=
    if product.description != "" then " " ++ product.description else ""
  let price := toFixed2 product.price
  ["💰 **" ++ product.name ++ "**: $" ++ price ++ description ++ "\n\nAdd it to your cart?",
   "→ " ++ product.name ++ ": **$" ++ price ++ "**" ++ description ++ "\n\nAdd to cart?",
   "$" ++ price ++ " — " ++ product.name ++ description ++ "\n\nShould I add it?",
   "**" ++ product.name ++ "** = $" ++ price ++ description ++ "\n\nAdd it?",
   "Price: **$" ++ price ++ "**" ++ description ++ "\n\nThat\x27s for the "
     ++ product.name ++ ".\n\nShould I add it?",
   "**" ++ product.name ++ "**\n$" ++ price ++ description ++ "\n\nWant me to add it?",
   "**" ++ product.name ++ "**\nPrice: $" ++ price ++ description ++ "\n\nAdd it?",
   "$" ++ price ++ " for " ++ product.name ++ "." ++ description
     ++ "\n\nWant me to add it?\n\nIt\x27s a great choice!",
   "That\x27s $" ++ price ++ "." ++ description ++ "\n\nThe " ++ product.name
     ++ " is a great choice!\n\nIt\x27s one of our popular items.\n\nAdd it to your cart?",
   "Price: $" ++ price ++ description ++ "\n\nThat\x27s the " ++ product.name
     ++ ".\n\nIt\x27s really good!\n\nAdd it?",
   "$" ++ price ++ " — " ++ product.name ++ description
     ++ "\n\nShould I add it to your cart?\n\nIt\x27s a customer favorite.\n\nWant me to add it?",
   "**" ++ product.name ++ "**: $" ++ price ++ description
     ++ "\n\nAdd it?\n\nIt\x27s definitely worth trying.\n\nShould I go ahead?",
   "$" ++ price ++ " for " ++ product.name ++ description
     ++ "\n\nWant me to add it?\n\nThis is one of our best sellers.\n\nCustomers love it!\n\nShould I add it to your cart?",
   "**" ++ product.name ++ "**\n→ $" ++ price ++ description
     ++ "\n\nAdd to cart?\n\nIt\x27s made with premium ingredients.\n\nYou\x27ll love it!\n\nWant me to add it?",
   "That one\x27s $" ++ price ++ "." ++ description ++ "\n\nThe " ++ product.name
     ++ " is excellent.\n\nIt\x27s a quality choice.\n\nPeople keep coming back for it.\n\nAdd it?",
   "$" ++ price ++ " — " ++ product.name ++ description
     ++ "\n\nShould I add it?\n\nThis item is really popular.\n\nIt\x27s prepared fresh daily.\n\nWant me to add it to your order?"]

/-- `generatePriceResponse` (`ChatRoom.tsx:759`). -/
def generatePriceResponse (product : Product) (r : Nat) : String :=
  let responses := priceTemplates product
  responses.getD (r % responses.length) ""

/-- The fixed clarification used when a price query names no known product. -/
def priceClarifyMessage : String :=
  "I\x27d be happy to help you with pricing! Could you please specify which item you\x27d like to know the price of?"

/-- The fixed apology appended when `callChatBotAPI` throws. -/
def apologyMessage : String :=
  "I\x27m sorry, I encountered an error. Please try again or check your connection."

/-- The final fallback used when empty content is covered by no handler. -/
def fallbackMessage : String :=
  "I\x27m sorry, I didn\x27t catch that. Could you please elaborate?"

/-- The follow-up questions appended to a cart-confirmation message. -/
def followUpQuestions : List String :=
  ["Would you like to add anything else?",
   "Is there anything else you\x27d like to add?",
   "Would you like to add more items?",
   "Anything else you\x27d like to order?",
   "Can I help you with anything else?",
   "Would you like to add something more?",
   "Is there anything else I can add for you?",
   "Would you like to add any other items?"]

/-- `` itemNames.slice(0, -1).join(', ') + ' and ' + last `` (single name kept
as is). -/
def itemTextOf (itemNames : List String) : String :=
  if itemNames.length == 1 then itemNames.getD 0 ""
  else
    String.intercalate ", " itemNames.dropLast ++ " and "
      ++ itemNames.getD (itemNames.length - 1) ""

/-- The 12 cart-confirmation variations (`ChatRoom.tsx:905`); each template
draws its own follow-up question (`ρ 0` … `ρ 11`). -/
def messageVariations (ρ : Nat → Nat) (itemNames : List String) : List String :=
  let itemText := itemTextOf itemNames
  let single := itemNames.length == 1
  let itThey := if single then "It" else "They"
  let isAre := if single then "is" else "are"
  let hasHave := if single then "has" else "have"
  let looksLook := if single then "looks" else "look"
  let fu (k : Nat) := followUpQuestions.getD (ρ k % followUpQuestions.length) ""
  ["Great! I\x27ve added " ++ itemText ++ " to your cart. " ++ itThey ++ " "
     ++ isAre ++ " ready for checkout! " ++ fu 0,
   "Perfect! " ++ itemText ++ " " ++ hasHave ++ " been added to your cart. "
     ++ itThey ++ " " ++ isAre ++ " ready when you are! " ++ fu 1,
   "Excellent choice! I\x27ve added " ++ itemText ++ " to your cart. " ++ itThey
     ++ " " ++ isAre ++ " waiting for you! " ++ fu 2,
   "Wonderful! " ++ itemText ++ " " ++ isAre
     ++ " now in your cart. Ready to proceed to checkout! " ++ fu 3,
   "Awesome! I\x27ve placed " ++ itemText ++ " in your cart. " ++ itThey ++ " "
     ++ isAre ++ " all set! " ++ fu 4,
   "Perfect selection! " ++ itemText ++ " " ++ hasHave
     ++ " been added. Your cart is ready! " ++ fu 5,
   "Great pick! I\x27ve added " ++ itemText ++ " to your cart. " ++ itThey ++ " "
     ++ looksLook ++ " delicious! " ++ fu 6,
   "Fantastic! " ++ itemText ++ " " ++ isAre ++ " now in your cart. " ++ itThey
     ++ " " ++ isAre ++ " ready for checkout! " ++ fu 7,
   "Lovely choice! I\x27ve added " ++ itemText ++ " to your cart. " ++ itThey
     ++ " " ++ isAre ++ " waiting for you! " ++ fu 8,
   "Superb! " ++ itemText ++ " " ++ hasHave
     ++ " been added to your cart. Ready to complete your order! " ++ fu 9,
   "Nice selection! I\x27ve placed " ++ itemText ++ " in your cart. " ++ itThey
     ++ " " ++ isAre ++ " all set for checkout! " ++ fu 10,
   "Wonderful! " ++ itemText ++ " " ++ isAre ++ " now in your cart. " ++ itThey
     ++ " " ++ isAre ++ " ready when you are! " ++ fu 11]

/-- The randomly selected cart-confirmation message (pick drawn at `ρ 12`). -/
def cartAddedMessage (ρ : Nat → Nat) (itemNames : List String) : String :=
  let variations := messageVariations ρ itemNames
  variations.getD (ρ 12 % variations.length) ""

/-- The 16 direct-order confirmation templates (`ChatRoom.tsx:976`). -/
def orderResponseTemplates (product : Product) : List String :=
  let description :=
    if product.description != "" then " " ++ product.description else ""
  let price := toFixed2 product.price
  ["✅ Added: **" ++ product.name ++ "**\n💰 Price: $" ++ price ++ description
     ++ "\n\nAnything else?",
   "**" ++ product.name ++ "** → Cart ✓\n$" ++ price ++ description ++ "\n\nWhat\x27s next?",
   "✓ **" ++ product.name ++ "** added\n$" ++ price ++ description ++ "\n\nNeed anything else?",
   "**" ++ product.name ++ "** ✓\n$" ++ price ++ description ++ "\n\nAnything else?",
   "Done! " ++ product.name ++ " is in your cart." ++ description
     ++ "\n\nPrice: $" ++ price ++ "\n\nAdd more?",
   "Cart updated:\n• " ++ product.name ++ " - $" ++ price ++ description ++ "\n\nWhat else?",
   "Added to cart:\n**" ++ product.name ++ "** | $" ++ price ++ description ++ "\n\nMore items?",
   "✅ " ++ product.name ++ "\n$" ++ price ++ description ++ "\n\nAdd more?",
   "**" ++ product.name ++ "** is now in your cart." ++ description
     ++ "\n\nPrice: $" ++ price ++ "\n\nWhat else?\n\nReady for checkout when you are!",
   "→ " ++ product.name ++ " added\n$" ++ price ++ description
     ++ "\n\nNeed anything else?\n\nYour order is taking shape!",
   "Cart: **" ++ product.name ++ "** ✓\n$" ++ price ++ description
     ++ "\n\nWhat\x27s next?\n\nI\x27m here if you need more!",
   "**" ++ product.name ++ "** → $" ++ price ++ description
     ++ "\n\nAdded! More items?\n\nYour cart is looking good!",
   "✓ Added **" ++ product.name ++ "**\n$" ++ price ++ description
     ++ "\n\nAnything else?\n\nIt\x27s all set and ready.\n\nWhat would you like next?",
   "**" ++ product.name ++ "** is ready!" ++ description ++ "\n\n$" ++ price
     ++ "\n\nAdd more?\n\nYour selection is perfect.\n\nNeed anything else?",
   "Cart updated with **" ++ product.name ++ "**\n$" ++ price ++ description
     ++ "\n\nWhat else?\n\nIt\x27s ready for checkout.\n\nWant to add more items?",
   "**" ++ product.name ++ "** ✓ $" ++ price ++ description
     ++ "\n\nNeed anything else?\n\nYour cart is ready.\n\nI can help you add more.\n\nWhat would you like?"]

/-- The randomly selected direct-order confirmation. -/
def orderAddedMessage (product : Product) (r : Nat) : String :=
  let responses := orderResponseTemplates product
  responses.getD (r % responses.length) ""

/-- The outcome of `callChatBotAPI` as `handleSendMessage` observes it:
either the promise rejected, or it yielded a message whose `content` is a
string together with the full response body.  (A non-string `content` makes
`callChatBotAPI` itself throw during validation, which lands in the `threw`
case.) -/
inductive APIOutcome where
  | threw : APIOutcome
  | ok (content : String) (fullResponse : JSValue) : APIOutcome

/-- The assistant reply `handleSendMessage` (`ChatRoom.tsx:791`) appends to
the conversation for one turn, `none` when no assistant turn is appended (an
empty input, or the deterministic completion path that opens the payment
modal instead).  State reads are the render-time snapshot `s`. -/
def handleSendMessage (products : List Product) (s : ChatState) (ρ : Nat → Nat)
    (inputValue : String) (api : APIOutcome) : Option String :=
  let message := jsTrim inputValue
  if message == "" then none
  else if isOrderCompletion message then none
  else
    match api with
    | .threw => some apologyMessage
    | .ok content fullResponse =>
      let orderItems :=
        if fullResponse.truthy then extractOrderFromMemory fullResponse else []
      let hasOrders := decide (orderItems.length > 0)
      let content₁ :=
        if fullResponse.truthy && hasOrders then
          let previousOrderItems := if s.lastOrderHash == "" then [] else s.lastOrderItems
          let previousItemsSet := previousOrderItems.map orderItemKey
          let newItems :=
            orderItems.filter fun i => !(previousItemsSet.contains (orderItemKey i))
          if newItems.length > 0 then
            let matchedItems := newItems.filterMap fun i =>
              match matchOrderItemToProduct i products with
              | some product =>
                if !(s.processedOrders.contains
                      (cartItemKey product.id (normQtyInt i.quantity))) then
                  some product.name
                else none
              | none => none
            if decide (matchedItems.length > 0) && jsTrim content == "" then
              cartAddedMessage ρ matchedItems
            else content
          else content
        else content
      if jsTrim content₁ == "" && !hasOrders then
        if isRecommendationQuery message then
          some (generateRecommendationResponse products (ρ 13))
        else if isPriceQuery message then
          match extractProductNameFromQuery message products with
          | some product => some (generatePriceResponse product (ρ 13))
          | none => some priceClarifyMessage
        else if jsIncludes (jsToLower message) "order" || jsIncludes (jsToLower message) "add"
            || jsIncludes (jsToLower message) "like to" then
          match extractProductNameFromQuery message products with
          | some product =>
            let itemKey := cartItemKey product.id 1
            let isAlreadyInCart :=
              s.cart.any fun item => item.product.id == product.id && 1 ≤ item.quantity
            let isAlreadyProcessed := s.processedOrders.contains itemKey
            if !isAlreadyInCart && !isAlreadyProcessed then
              some (orderAddedMessage product (ρ 13))
            else some fallbackMessage
          | none => some fallbackMessage
        else some fallbackMessage
      else some content₁

end CoffeeChat

namespace CoffeeChat

/-! ## `chatBot.ts`: `pollJobStatus` -/

/-- One HTTP exchange of the polling loop: either a successful response body,
or an axios error carrying `error.response?.status`. -/
inductive PollResponse where
  | ok (data : JSValue) : PollResponse
  | err (httpStatus : Option Nat) : PollResponse

/-- How `pollJobStatus` leaves: the completed status body is returned, a
`FAILED` status throws `Job failed: …`, a non-404 request error is rethrown,
or the attempt bound is exhausted and `Job did not complete …` is thrown. -/
inductive PollResult where
  | completed (data : JSValue) : PollResult
  | jobFailed : PollResult
  | requestError : PollResult
  | timedOut : PollResult

/-- The decision one loop iteration takes on its response: `none` continues
polling (`IN_PROGRESS`, `IN_QUEUE`, an unknown status, or a 404), `some`
leaves the loop with that outcome.  Reading `.status` off a nullish body
throws a `TypeError`, which the `catch` rethrows (it has no `response`
field). -/
def pollDecision (response : PollResponse) : Option PollResult :=
  match response with
  | .ok data =>
    match data.get "status" with
    | .error _ => some .requestError
    | .ok st =>
      if st.strictEqStr "COMPLETED" then some (.completed data)
      else if st.strictEqStr "FAILED" then some .jobFailed
      else none
  | .err httpStatus => if httpStatus == some 404 then none else some .requestError

/-- The polling loop from a given attempt index with the given remaining
attempts; also counts the status queries issued. -/
def pollAux (responses : Nat → PollResponse) : Nat → Nat → PollResult × Nat
  | _, 0 => (.timedOut, 0)
  | attempt, n + 1 =>
    match pollDecision (responses attempt) with
    | some res => (res, 1)
    | none =>
      let rec' := pollAux responses (attempt + 1) n
      (rec'.1, rec'.2 + 1)

/-- The default `maxAttempts` of `pollJobStatus`. -/
def pollDefaultMaxAttempts : Nat := 150

/-- `pollJobStatus` (`chatBot.ts:8`), abstracted over the stream of status
responses; returns the outcome and the number of status queries issued. -/
def pollJobStatus (responses : Nat → PollResponse)
    (maxAttempts : Nat := pollDefaultMaxAttempts) : PollResult × Nat :=
  pollAux responses 0 maxAttempts

end CoffeeChat

namespace CoffeeChat

/-! ## Theorems -/

/-- C5: completion-of-order detection is a pure keyword match: it returns
`true` exactly when the lowercased, trimmed message contains one of the fixed
completion phrases, and two runs on the same text agree. -/
theorem isOrderCompletion_deterministic_c5 (message : String) :
    (isOrderCompletion message = true ↔
      ∃ phrase ∈ completionPhrases, phrase.data <:+: (jsTrim (jsToLower message)).data)
    ∧ isOrderCompletion message = isOrderCompletion message := by
  refine ⟨?_, rfl⟩
  simp [isOrderCompletion, jsIncludes, List.any_eq_true]

/-- C10: a non-positive quantity removes the product's lines entirely, a
positive quantity replaces the matching line's quantity and leaves every
other line unchanged; the call never stores a non-positive quantity. -/
theorem updateQuantity_c10 (cart : List CartItem) (productId : String) (q : Int) :
    (q ≤ 0 → updateQuantity cart productId q
        = cart.filter fun item => item.product.id != productId)
    ∧ (0 < q → updateQuantity cart productId q
        = cart.map fun item =>
            if item.product.id = productId then { item with quantity := q } else item)
    ∧ (∀ item ∈ updateQuantity cart productId q,
        item.product.id = productId → item.quantity = q ∧ 0 < item.quantity) := by
  have h1 : q ≤ 0 → updateQuantity cart productId q
      = cart.filter fun item => item.product.id != productId := by
    intro h; simp [updateQuantity, removeFromCart, h]
  have h2 : 0 < q → updateQuantity cart productId q
      = cart.map fun item =>
          if item.product.id = productId then { item with quantity := q } else item := by
    intro h
    have hq : ¬ q ≤ 0 := not_le.mpr h
    simp [updateQuantity, hq, beq_iff_eq]
  refine ⟨h1, h2, fun item hmem heq => ?_⟩
  rcases le_or_lt q 0 with h | h
  · rw [h1 h] at hmem
    have hpred := (List.mem_filter.mp hmem).2
    simp [heq] at hpred
  · rw [h2 h] at hmem
    obtain ⟨a, ha, rfl⟩ := List.mem_map.mp hmem
    by_cases hid : a.product.id = productId
    · simp [hid, h]
    · simp [hid] at heq

/-- helper: a call whose hash equals the stored hash is the identity. -/
theorem processOrdersFromMemory_hash_hit (products : List Product) (s : ChatState)
    (orderItems : List OrderItem)
    (h : (stringifyOrderItems (orderItems.map normalizeOrderItem) == s.lastOrderHash) = true) :
    processOrdersFromMemory products s orderItems = s := by
  simp [processOrdersFromMemory, h]

/-- helper: any other call stores the hash of the submitted order. -/
theorem processOrdersFromMemory_hash_miss (products : List Product) (s : ChatState)
    (orderItems : List OrderItem)
    (h : (stringifyOrderItems (orderItems.map normalizeOrderItem) == s.lastOrderHash) = false) :
    (processOrdersFromMemory products s orderItems).lastOrderHash
      = stringifyOrderItems (orderItems.map normalizeOrderItem) := by
  simp [processOrdersFromMemory, h]

/-- C2: re-processing the identical extracted order list is a no-op — the
second call hits the stored order hash and returns the state unchanged, so no
duplicate lines are appended. -/
theorem processOrdersFromMemory_idempotent_c2 (products : List Product)
    (s : ChatState) (orderItems : List OrderItem) :
    processOrdersFromMemory products (processOrdersFromMemory products s orderItems)
        orderItems = processOrdersFromMemory products s orderItems := by
  rcases Bool.eq_false_or_eq_true
      (stringifyOrderItems (orderItems.map normalizeOrderItem) == s.lastOrderHash) with h | h
  · rw [processOrdersFromMemory_hash_hit products s orderItems h]
    exact processOrdersFromMemory_hash_hit products s orderItems h
  · apply processOrdersFromMemory_hash_hit
    rw [processOrdersFromMemory_hash_miss products s orderItems h]
    exact beq_self_eq_true _

/-- helper: the loop issues at most as many queries as it has attempts. -/
theorem pollAux_queries_le (responses : Nat → PollResponse) :
    ∀ (n attempt : Nat), (pollAux responses attempt n).2 ≤ n := by
  intro n
  induction n with
  | zero => intro attempt; simp [pollAux]
  | succ n ih =>
    intro attempt
    simp only [pollAux]
    cases h : pollDecision (responses attempt) with
    | some res => simp
    | none =>
      simp only []
      have := ih (attempt + 1)
      omega

/-- helper: the first decisive response ends the loop with its outcome. -/
theorem pollAux_decides (responses : Nat → PollResponse) :
    ∀ (k attempt n : Nat) (res : PollResult), k < n →
      (∀ i, i < k → pollDecision (responses (attempt + i)) = none) →
      pollDecision (responses (attempt + k)) = some res →
      pollAux responses attempt n = (res, k + 1) := by
  intro k
  induction k with
  | zero =>
    intro attempt n res hk hnone hdec
    match n, hk with
    | n + 1, _ =>
      simp only [pollAux]
      rw [show attempt + 0 = attempt from rfl] at hdec
      rw [hdec]
  | succ k ih =>
    intro attempt n res hk hnone hdec
    match n, hk with
    | n + 1, hk =>
      simp only [pollAux]
      have h0 : pollDecision (responses attempt) = none := by
        have := hnone 0 (by omega)
        simpa using this
      rw [h0]
      have hrec := ih (attempt + 1) n res (by omega)
        (fun i hi => by
          have := hnone (i + 1) (by omega)
          have harith : attempt + (i + 1) = attempt + 1 + i := by omega
          rwa [harith] at this)
        (by
          have harith : attempt + (k + 1) = attempt + 1 + k := by omega
          rwa [harith] at hdec)
      simp [hrec]

/-- helper: all-indecisive responses exhaust the bound. -/
theorem pollAux_exhausts (responses : Nat → PollResponse) :
    ∀ (n attempt : Nat),
      (∀ i, i < n → pollDecision (responses (attempt + i)) = none) →
      pollAux responses attempt n = (.timedOut, n) := by
  intro n
  induction n with
  | zero => intro attempt _; simp [pollAux]
  | succ n ih =>
    intro attempt hnone
    simp only [pollAux]
    have h0 : pollDecision (responses attempt) = none := by
      have := hnone 0 (by omega)
      simpa using this
    rw [h0]
    have hrec := ih (attempt + 1) (fun i hi => by
      have := hnone (i + 1) (by omega)
      have harith : attempt + (i + 1) = attempt + 1 + i := by omega
      rwa [harith] at this)
    simp [hrec]

/-- C8: polling is bounded by `maxAttempts` (default 150) status queries; the
first `FAILED` status errors immediately, the first `COMPLETED` status returns
its body, and exhausting the bound errors out instead of looping or returning
partial data. -/
theorem pollJobStatus_bounded_c8 (responses : Nat → PollResponse) (maxAttempts : Nat) :
    pollDefaultMaxAttempts = 150
    ∧ (pollJobStatus responses maxAttempts).2 ≤ maxAttempts
    ∧ (∀ k data, k < maxAttempts →
        (∀ i, i < k → pollDecision (responses i) = none) →
        responses k = .ok data → data.get "status" = .ok (.str "FAILED") →
        pollJobStatus responses maxAttempts = (.jobFailed, k + 1))
    ∧ (∀ k data, k < maxAttempts →
        (∀ i, i < k → pollDecision (responses i) = none) →
        responses k = .ok data → data.get "status" = .ok (.str "COMPLETED") →
        pollJobStatus responses maxAttempts = (.completed data, k + 1))
    ∧ ((∀ i, i < maxAttempts → pollDecision (responses i) = none) →
        pollJobStatus responses maxAttempts = (.timedOut, maxAttempts)) := by
  refine ⟨rfl, pollAux_queries_le responses maxAttempts 0, ?_, ?_, ?_⟩
  · intro k data hk hnone hresp hstatus
    apply pollAux_decides responses k 0 maxAttempts _ hk (by simpa using hnone)
    simp only [Nat.zero_add, hresp, pollDecision, hstatus]
    simp [JSValue.strictEqStr]
  · intro k data hk hnone hresp hstatus
    apply pollAux_decides responses k 0 maxAttempts _ hk (by simpa using hnone)
    simp only [Nat.zero_add, hresp, pollDecision, hstatus]
    simp [JSValue.strictEqStr]
  · intro hnone
    exact pollAux_exhausts responses maxAttempts 0 (by simpa using hnone)

/-- helper: adding an absent product appends one line. -/
theorem addToCart_of_not_mem (cart : List CartItem) (p : Product) (q : Int)
    (h : ∀ c ∈ cart, c.product.id ≠ p.id) :
    addToCart cart p q = cart ++ [{ product := p, quantity := q }] := by
  have hf : cart.find? (fun item => item.product.id == p.id) = none := by
    rw [List.find?_eq_none]
    intro x hx
    simpa using h x hx
  simp [addToCart, hf]

/-- helper: adding a present product bumps that line's quantity. -/
theorem addToCart_of_mem (cart : List CartItem) (p : Product) (q : Int)
    (hnd : (cart.map fun c => c.product.id).Nodup)
    (old : CartItem) (hold : old ∈ cart) (hid : old.product.id = p.id) :
    addToCart cart p q = cart.map fun c =>
      if c.product.id = p.id then { c with quantity := c.quantity + q } else c := by
  cases hf : cart.find? (fun item => item.product.id == p.id) with
  | none =>
    rw [List.find?_eq_none] at hf
    exact absurd (by simpa using hid) (by simpa using hf old hold)
  | some existing =>
    have hex_mem : existing ∈ cart := List.mem_of_find?_eq_some hf
    have hex_id : existing.product.id = p.id := by
      have := List.find?_some hf
      simpa using this
    simp only [addToCart, hf]
    apply List.map_congr_left
    intro c hc
    by_cases hcid : c.product.id = p.id
    · have hce : c = existing :=
        List.inj_on_of_nodup_map hnd hc hex_mem (by rw [hcid, hex_id])
      simp [hcid, ← hce]
    · simp [hcid]

/-- helper: `addToCart` preserves distinctness of the product ids. -/
theorem addToCart_ids_nodup (cart : List CartItem) (p : Product) (q : Int)
    (hnd : (cart.map fun c => c.product.id).Nodup) :
    ((addToCart cart p q).map fun c => c.product.id).Nodup := by
  cases hf : cart.find? (fun item => item.product.id == p.id) with
  | some existing =>
    simp only [addToCart, hf]
    rw [List.map_map]
    have hfun : ((fun c : CartItem => c.product.id) ∘
        (fun item : CartItem =>
          if item.product.id == p.id then
            { item with quantity := existing.quantity + q }
          else item)) = fun c : CartItem => c.product.id := by
      funext c
      by_cases h : c.product.id = p.id <;> simp [h]
    rw [hfun]
    exact hnd
  | none =>
    simp only [addToCart, hf]
    rw [List.map_append]
    rw [List.nodup_append]
    refine ⟨hnd, by simp, ?_⟩
    rw [List.find?_eq_none] at hf
    intro x hx hx'
    simp at hx'
    subst hx'
    obtain ⟨c, hc, hcid⟩ := List.mem_map.mp hx
    exact absurd (by simpa using hcid) (by simpa using hf c hc)

/-- C3: adding an already-present product id bumps that line's quantity by the
added amount without creating a second line, a fresh product id appends
exactly one line, and every cart reachable through `addToCart` keeps at most
one line per product id. -/
theorem addToCart_unique_lines_c3 :
    (∀ (cart : List CartItem) (p : Product) (q : Int),
      (cart.map fun c => c.product.id).Nodup →
        ((∀ c ∈ cart, c.product.id ≠ p.id) →
            addToCart cart p q = cart ++ [{ product := p, quantity := q }])
        ∧ (∀ old ∈ cart, old.product.id = p.id →
            addToCart cart p q = (cart.map fun c =>
                if c.product.id = p.id then { c with quantity := c.quantity + q } else c)
              ∧ (addToCart cart p q).length = cart.length))
    ∧ (∀ cart, ReachableCart cart → (cart.map fun c => c.product.id).Nodup) := by
  constructor
  · intro cart p q hnd
    refine ⟨addToCart_of_not_mem cart p q, fun old hold hid => ?_⟩
    have hmap := addToCart_of_mem cart p q hnd old hold hid
    exact ⟨hmap, by rw [hmap, List.length_map]⟩
  · intro cart h
    induction h with
    | nil => simp
    | add cart p q hr ih => exact addToCart_ids_nodup cart p q ih

end CoffeeChat

namespace CoffeeChat

/-- helper: every item surviving the name filter has a non-blank string name. -/
theorem filterNormalizedItems_ok_names :
    ∀ (ps : List PreOrderItem) (items : List OrderItem),
      filterNormalizedItems ps = .ok items →
      ∀ i ∈ items, i.item ≠ "" ∧ jsTrim i.item ≠ "" := by
  intro ps
  induction ps with
  | nil =>
    intro items h i hi
    simp only [filterNormalizedItems] at h
    injection h with h
    subst h
    simp at hi
  | cons p ps ih =>
    intro items h i hi
    simp only [filterNormalizedItems] at h
    cases hrest : filterNormalizedItems ps with
    | error e => rw [hrest] at h; simp at h
    | ok rest =>
      rw [hrest] at h
      dsimp only at h
      by_cases htr : p.item.truthy
      · rw [if_pos htr] at h
        cases hItem : p.item with
        | str s =>
          rw [hItem] at h
          injection h with h
          subst h
          by_cases hkeep : (jsTrim s != "") = true
          · rw [if_pos hkeep] at hi
            rcases List.mem_cons.mp hi with rfl | hi'
            · refine ⟨?_, by simpa using hkeep⟩
              rw [hItem] at htr
              simpa [JSValue.truthy] using htr
            · exact ih rest hrest i hi'
          · rw [if_neg hkeep] at hi
            exact ih rest hrest i hi
        | undefined => rw [hItem] at h; simp at h
        | null => rw [hItem] at h; simp at h
        | bool b => rw [hItem] at h; simp at h
        | num n => rw [hItem] at h; simp at h
        | arr xs => rw [hItem] at h; simp at h
        | obj fs => rw [hItem] at h; simp at h
      · rw [if_neg htr] at h
        injection h with h
        subst h
        exact ih rest hrest i hi

/-- C9 -/
theorem extractOrderFromMemory_sanitizes_c9 (responseData : JSValue) :
    (∀ item ∈ extractOrderFromMemory responseData,
        item.item ≠ "" ∧ jsTrim item.item ≠ "")
    ∧ (findOrderArray responseData = none → extractOrderFromMemory responseData = []) := by
  constructor
  · intro item hmem
    simp only [extractOrderFromMemory] at hmem
    cases hm : normalizeRawItems ((findOrderArray responseData).getD []) with
    | error e => rw [hm] at hmem; simp at hmem
    | ok normalized =>
      rw [hm] at hmem
      dsimp only at hmem
      cases hfl : filterNormalizedItems normalized with
      | error e => rw [hfl] at hmem; simp at hmem
      | ok items =>
        rw [hfl] at hmem
        exact filterNormalizedItems_ok_names normalized items hfl item hmem
  · intro h
    simp only [extractOrderFromMemory, h]
    rfl

end CoffeeChat

namespace CoffeeChat

/-- helper: items the matcher rejects leave the loop accumulator unchanged. -/
theorem processOrderLoop_of_no_match (products : List Product)
    (processed₀ : List String) (cart₀ : List CartItem) :
    ∀ (items : List OrderItem) (acc : List String × List CartItem),
      (∀ i ∈ items, matchOrderItemToProduct i products = none) →
      processOrderLoop products processed₀ cart₀ acc items = acc := by
  intro items
  induction items with
  | nil => intro acc _; rfl
  | cons i is ih =>
    intro acc hnone
    simp only [processOrderLoop]
    rw [hnone i (List.mem_cons_self i is)]
    exact ih acc fun j hj => hnone j (List.mem_cons_of_mem i hj)

/-- C1 amended -/
theorem matchOrderItemToProduct_policy_c1 :
    (∀ (orderItem : OrderItem) (products : List Product),
      (matchOrderItemToProduct orderItem products
          = (products.find? (exactMatchPred (jsTrim (jsToLower orderItem.item)))).orElse
              (fun _ =>
                (products.find? (partialMatchPred (jsTrim (jsToLower orderItem.item)))).orElse
                  (fun _ =>
                    products.find? (wordMatchPred (jsTrim (jsToLower orderItem.item))))))
        ∧ (matchOrderItemToProduct orderItem products = none ↔
            ∀ p ∈ products,
              exactMatchPred (jsTrim (jsToLower orderItem.item)) p = false
              ∧ partialMatchPred (jsTrim (jsToLower orderItem.item)) p = false
              ∧ wordMatchPred (jsTrim (jsToLower orderItem.item)) p = false))
    ∧ (∀ (products : List Product) (s : ChatState) (orderItems : List OrderItem),
        (∀ i ∈ orderItems, matchOrderItemToProduct i products = none) →
        (processOrdersFromMemory products s orderItems).cart = s.cart) := by
  constructor
  · intro orderItem products
    constructor
    · simp only [matchOrderItemToProduct]
      cases h1 : products.find? (exactMatchPred (jsTrim (jsToLower orderItem.item))) with
      | some m => simp [Option.orElse]
      | none =>
        cases h2 : products.find? (partialMatchPred (jsTrim (jsToLower orderItem.item))) with
        | some m => simp [Option.orElse]
        | none =>
          cases h3 : products.find? (wordMatchPred (jsTrim (jsToLower orderItem.item))) with
          | some m => simp [Option.orElse]
          | none => simp [Option.orElse]
    · have key : matchOrderItemToProduct orderItem products = none ↔
          (products.find? (exactMatchPred (jsTrim (jsToLower orderItem.item))) = none
            ∧ products.find? (partialMatchPred (jsTrim (jsToLower orderItem.item))) = none
            ∧ products.find? (wordMatchPred (jsTrim (jsToLower orderItem.item))) = none) := by
        simp only [matchOrderItemToProduct]
        cases h1 : products.find? (exactMatchPred (jsTrim (jsToLower orderItem.item))) with
        | some m => simp [h1]
        | none =>
          cases h2 : products.find? (partialMatchPred (jsTrim (jsToLower orderItem.item))) with
          | some m => simp [h1, h2]
          | none =>
            cases h3 : products.find? (wordMatchPred (jsTrim (jsToLower orderItem.item))) with
            | some m => simp [h1, h2, h3]
            | none => simp [h1, h2, h3]
      rw [key, List.find?_eq_none, List.find?_eq_none, List.find?_eq_none]
      constructor
      · intro h p hp
        exact ⟨by simpa using (h.1 p hp), by simpa using (h.2.1 p hp),
          by simpa using (h.2.2 p hp)⟩
      · intro h
        exact ⟨fun p hp => by simp [(h p hp).1], fun p hp => by simp [(h p hp).2.1],
          fun p hp => by simp [(h p hp).2.2]⟩
  · intro products s orderItems hnone
    by_cases hb : (stringifyOrderItems (orderItems.map normalizeOrderItem)
        == s.lastOrderHash) = true
    · rw [processOrdersFromMemory_hash_hit products s orderItems hb]
    · have hb' := Bool.eq_false_iff.mpr hb
      simp only [processOrdersFromMemory, hb', Bool.false_eq_true, if_false]
      rw [processOrderLoop_of_no_match products s.processedOrders s.cart _ _
        (fun j hj => hnone j (List.mem_of_mem_filter hj))]

/-- C1 counterexample -/
theorem matchOrderItemToProduct_ambiguity_counterexample_c1 :
    ([⟨"p1", "Mocha", 4, ""⟩, ⟨"p2", "Latte", 5, ""⟩].find?
        (exactMatchPred (jsTrim (jsToLower "Mocha Latte"))) = (none : Option Product))
    ∧ partialMatchPred (jsTrim (jsToLower "Mocha Latte")) ⟨"p1", "Mocha", 4, ""⟩ = true
    ∧ partialMatchPred (jsTrim (jsToLower "Mocha Latte")) ⟨"p2", "Latte", 5, ""⟩ = true
    ∧ (⟨"p1", "Mocha", 4, ""⟩ : Product) ≠ ⟨"p2", "Latte", 5, ""⟩
    ∧ matchOrderItemToProduct ⟨"Mocha Latte", .num 0, .int 1⟩
        [⟨"p1", "Mocha", 4, ""⟩, ⟨"p2", "Latte", 5, ""⟩] = some ⟨"p1", "Mocha", 4, ""⟩
    ∧ (processOrdersFromMemory [⟨"p1", "Mocha", 4, ""⟩, ⟨"p2", "Latte", 5, ""⟩]
        initialChatState [⟨"Mocha Latte", .num 0, .int 1⟩]).cart
        = [⟨⟨"p1", "Mocha", 4, ""⟩, 1⟩] := by
  refine ⟨by decide, by decide, by decide, by decide, by decide, by decide⟩

end CoffeeChat

namespace CoffeeChat

/-- C4 counterexample: `extractOrderFromMemory` keeps a present quantity of 0
instead of normalising it to 1. -/
theorem extractOrderFromMemory_zero_quantity_counterexample_c4 :
    (extractOrderFromMemory
        (.obj [("output", .obj [("memory", .obj [("order",
          .arr [.obj [("item", .str "Latte"), ("quantity", .num 0)]])])])])).map
        (fun i => i.quantity) = [.int 0]
    ∧ (JSNum.int 0) ≠ .int 1 := by
  exact ⟨by decide, by decide⟩

/-- C4 amended: the `processOrdersFromMemory` normalisation turns a missing,
`NaN` or non-positive quantity into 1 and keeps a positive one, while
`extractOrderFromMemory` defaults to 1 only when the quantity field is absent
(or null) and keeps any present numeric quantity, including zero or negative
ones. -/
theorem quantityNormalization_c4 :
    (∀ n : Int, 0 < n → normQtyInt (.int n) = n)
    ∧ (∀ n : Int, n ≤ 0 → normQtyInt (.int n) = 1)
    ∧ normQtyInt .nan = 1
    ∧ (∀ (name : String) (n : Int), name ≠ "" → jsTrim name ≠ "" →
        extractOrderFromMemory (.obj [("output", .obj [("memory", .obj [("order",
          .arr [.obj [("item", .str name), ("quantity", .num n)]])])])])
          = [⟨name, .num 0, .int n⟩])
    ∧ (∀ name : String, name ≠ "" → jsTrim name ≠ "" →
        extractOrderFromMemory (.obj [("output", .obj [("memory", .obj [("order",
          .arr [.obj [("item", .str name)]])])])])
          = [⟨name, .num 0, .int 1⟩]) := by
  refine ⟨?_, ?_, rfl, ?_, ?_⟩
  · intro n h
    simp only [normQtyInt]
    rw [if_pos ⟨by omega, h⟩]
  · intro n h
    simp only [normQtyInt]
    rw [if_neg (fun hc => absurd hc.2 (not_lt.mpr h))]
  · intro name n h1 h2
    have htrim : (jsTrim name != "") = true := by simpa using h2
    simp [extractOrderFromMemory, findOrderArray, JSValue.chain, JSValue.isNullish,
      JSValue.getProp, lookupField, JSValue.truthy, normalizeRawItem, JSValue.get,
      filterNormalizedItems, jsToNumber, h1, htrim, normalizeRawItems]
  · intro name h1 h2
    have htrim : (jsTrim name != "") = true := by simpa using h2
    simp [extractOrderFromMemory, findOrderArray, JSValue.chain, JSValue.isNullish,
      JSValue.getProp, lookupField, JSValue.truthy, normalizeRawItem, JSValue.get,
      filterNormalizedItems, jsToNumber, h1, htrim, normalizeRawItems]

end CoffeeChat

namespace CoffeeChat

instance productPriceDescTotal : IsTotal Product (fun a b => b.price ≤ a.price) :=
  ⟨fun a b => le_total b.price a.price⟩

instance productPriceDescTrans : IsTrans Product (fun a b => b.price ≤ a.price) :=
  ⟨fun _ _ _ hab hbc => le_trans hbc hab⟩

/-- C7: the recommended item list is a function of the product list alone —
both runs render the same `popularItems`, which is price-sorted descending,
of length `min 5 |products|`, and drawn from the catalog; only the template
pick depends on the random draw. -/
theorem generateRecommendationResponse_deterministic_c7
    (products : List Product) (r₁ r₂ : Nat) (h : products ≠ []) :
    generateRecommendationResponse products r₁
        = (recommendationTemplates (popularItems products)).getD
            (r₁ % (recommendationTemplates (popularItems products)).length) ""
    ∧ generateRecommendationResponse products r₂
        = (recommendationTemplates (popularItems products)).getD
            (r₂ % (recommendationTemplates (popularItems products)).length) ""
    ∧ List.Sorted (fun a b : Product => b.price ≤ a.price) (popularItems products)
    ∧ (popularItems products).length = min 5 products.length
    ∧ (∀ p ∈ popularItems products, p ∈ products) := by
  have hlen : products.length ≠ 0 := fun hc => h (List.length_eq_zero.mp hc)
  have hlenb : (products.length == 0) = false := beq_eq_false_iff_ne.mpr hlen
  refine ⟨?_, ?_, ?_, ?_, ?_⟩
  · simp [generateRecommendationResponse, hlenb]
  · simp [generateRecommendationResponse, hlenb]
  · exact List.Pairwise.sublist (List.take_sublist 5 _)
      (List.sorted_insertionSort (fun a b : Product => b.price ≤ a.price) products)
  · simp [popularItems, List.length_take,
      (List.perm_insertionSort (fun a b : Product => b.price ≤ a.price) products).length_eq]
  · intro p hp
    exact (List.perm_insertionSort (fun a b : Product => b.price ≤ a.price)
      products).subset (List.take_subset 5 _ hp)

end CoffeeChat

namespace CoffeeChat

/-- helper: an append whose left part is non-empty is non-empty. -/
theorem append_ne_empty_left (a b : String) (ha : a ≠ "") : a ++ b ≠ "" := by
  intro hc
  apply ha
  cases a with
  | mk da =>
    cases b with
    | mk db =>
      have h2 : da ++ db = [] := congrArg String.data hc
      rw [(List.append_eq_nil.mp h2).1]

/-- helper: `getD` at an in-range index is a member. -/
theorem getD_mem_of_lt (l : List String) (i : Nat) (d : String) (h : i < l.length) :
    l.getD i d ∈ l := by
  rw [List.getD_eq_getElem l d h]
  exact List.getElem_mem h

/-- helper: every recommendation template is non-empty. -/
theorem recommendationTemplates_ne_empty (items : List Product) :
    ∀ t ∈ recommendationTemplates items, t ≠ "" := by
  intro t ht
  fin_cases ht <;> ((repeat apply append_ne_empty_left); try decide)

/-- helper: the recommendation reply is never empty. -/
theorem generateRecommendationResponse_ne_empty (products : List Product) (r : Nat) :
    generateRecommendationResponse products r ≠ "" := by
  by_cases h : (products.length == 0) = true
  · simp only [generateRecommendationResponse, h, if_true]
    decide
  · have hb : (products.length == 0) = false := Bool.eq_false_iff.mpr h
    simp only [generateRecommendationResponse, hb, Bool.false_eq_true, if_false]
    apply recommendationTemplates_ne_empty
    apply getD_mem_of_lt
    exact Nat.mod_lt _ (by
      rw [show (recommendationTemplates (popularItems products)).length = 15 from rfl]
      omega)

/-- helper: every price template is non-empty. -/
theorem priceTemplates_ne_empty (product : Product) :
    ∀ t ∈ priceTemplates product, t ≠ "" := by
  intro t ht
  fin_cases ht <;> ((repeat apply append_ne_empty_left); try decide)

/-- helper: the price reply is never empty. -/
theorem generatePriceResponse_ne_empty (product : Product) (r : Nat) :
    generatePriceResponse product r ≠ "" := by
  apply priceTemplates_ne_empty
  apply getD_mem_of_lt
  exact Nat.mod_lt _ (by
    rw [show (priceTemplates product).length = 16 from rfl]
    omega)

/-- helper: every direct-order template is non-empty. -/
theorem orderResponseTemplates_ne_empty (product : Product) :
    ∀ t ∈ orderResponseTemplates product, t ≠ "" := by
  intro t ht
  fin_cases ht <;> ((repeat apply append_ne_empty_left); try decide)

/-- helper: the direct-order reply is never empty. -/
theorem orderAddedMessage_ne_empty (product : Product) (r : Nat) :
    orderAddedMessage product r ≠ "" := by
  apply orderResponseTemplates_ne_empty
  apply getD_mem_of_lt
  exact Nat.mod_lt _ (by
    rw [show (orderResponseTemplates product).length = 16 from rfl]
    omega)

end CoffeeChat

namespace CoffeeChat

/-- C6 amended: for a non-empty, non-completion message, a thrown chatbot call
appends the fixed apology; a successful call with no extracted order items
always appends a reply and that reply is non-empty, with the fixed fallback
sentence covering empty content that no informational handler handles.  (When
order items are present but none is a newly-matched addition, empty API
content passes through unchanged — see the counterexample.) -/
theorem handleSendMessage_reply_c6 :
    (∀ (products : List Product) (s : ChatState) (ρ : Nat → Nat) (inputValue : String),
        jsTrim inputValue ≠ "" → isOrderCompletion (jsTrim inputValue) = false →
        handleSendMessage products s ρ inputValue .threw = some apologyMessage)
    ∧ (∀ (products : List Product) (s : ChatState) (ρ : Nat → Nat)
        (inputValue content : String) (fullResponse : JSValue),
        jsTrim inputValue ≠ "" → isOrderCompletion (jsTrim inputValue) = false →
        (if fullResponse.truthy then extractOrderFromMemory fullResponse else []) = [] →
        handleSendMessage products s ρ inputValue (.ok content fullResponse) ≠ none
          ∧ (∀ reply,
              handleSendMessage products s ρ inputValue (.ok content fullResponse)
                = some reply → reply ≠ ""))
    ∧ (∀ (products : List Product) (s : ChatState) (ρ : Nat → Nat)
        (inputValue content : String) (fullResponse : JSValue),
        jsTrim inputValue ≠ "" → isOrderCompletion (jsTrim inputValue) = false →
        (if fullResponse.truthy then extractOrderFromMemory fullResponse else []) = [] →
        jsTrim content = "" →
        isRecommendationQuery (jsTrim inputValue) = false →
        isPriceQuery (jsTrim inputValue) = false →
        (jsIncludes (jsToLower (jsTrim inputValue)) "order"
          || jsIncludes (jsToLower (jsTrim inputValue)) "add"
          || jsIncludes (jsToLower (jsTrim inputValue)) "like to") = false →
        handleSendMessage products s ρ inputValue (.ok content fullResponse)
          = some fallbackMessage) := by
  refine ⟨?_, ?_, ?_⟩
  · intro products s ρ inputValue h1 h2
    have hb1 : (jsTrim inputValue == "") = false := beq_eq_false_iff_ne.mpr h1
    simp [handleSendMessage, hb1, h2]
  · intro products s ρ inputValue content fullResponse h1 h2 hord
    have hb1 : (jsTrim inputValue == "") = false := beq_eq_false_iff_ne.mpr h1
    constructor
    · simp only [handleSendMessage, hb1, Bool.false_eq_true, if_false, h2, hord]
      intro hnone
      iterate 10 all_goals try split at hnone
      all_goals simp at hnone
    · intro reply hrep
      simp only [handleSendMessage, hb1, Bool.false_eq_true, if_false, h2, hord] at hrep
      simp only [List.length_nil, gt_iff_lt, lt_irrefl, decide_False, Bool.and_false,
        Bool.false_eq_true, if_false, Bool.not_false, Bool.and_true] at hrep
      by_cases hc : jsTrim content = ""
      · have hcb : (jsTrim content == "") = true := beq_iff_eq.mpr hc
        rw [hcb] at hrep
        simp only [if_true] at hrep
        split at hrep
        · injection hrep with hrep
          subst hrep
          exact generateRecommendationResponse_ne_empty products (ρ 13)
        · split at hrep
          · split at hrep
            · injection hrep with hrep
              subst hrep
              exact generatePriceResponse_ne_empty _ (ρ 13)
            · injection hrep with hrep
              subst hrep
              decide
          · split at hrep
            · split at hrep
              · split at hrep
                · injection hrep with hrep
                  subst hrep
                  exact orderAddedMessage_ne_empty _ (ρ 13)
                · injection hrep with hrep
                  subst hrep
                  decide
              · injection hrep with hrep
                subst hrep
                decide
            · injection hrep with hrep
              subst hrep
              decide
      · have hcb : (jsTrim content == "") = false := beq_eq_false_iff_ne.mpr hc
        rw [hcb] at hrep
        simp only [Bool.false_eq_true, if_false] at hrep
        injection hrep with hrep
        subst hrep
        intro hce
        exact hc (by rw [hce]; rfl)
  · intro products s ρ inputValue content fullResponse h1 h2 hord hc hr hp hk
    have hb1 : (jsTrim inputValue == "") = false := beq_eq_false_iff_ne.mpr h1
    have hcb : (jsTrim content == "") = true := beq_iff_eq.mpr hc
    simp [handleSendMessage, hb1, h2, hord, hcb, hr, hp, hk]

end CoffeeChat

namespace CoffeeChat

/-- C6 counterexample: order items present in memory, no product catalog to
match them, empty API content — the appended assistant reply is the empty
string. -/
theorem handleSendMessage_empty_reply_counterexample_c6 :
    handleSendMessage [] initialChatState (fun _ => 0) "hello"
        (.ok "" (.obj [("memory", .obj [("order", .arr [.obj [("item", .str "Latte")]])])]))
      = some "" := by
  decide

end CoffeeChat

namespace CoffeeChat

/-- Witness for the C1 theorem at a concrete input. -/
theorem matchOrderItemToProduct_policy_c1_witness :
    (processOrdersFromMemory [] initialChatState
        [⟨"xyz", .num 0, .int 1⟩]).cart = initialChatState.cart :=
  matchOrderItemToProduct_policy_c1.2 [] initialChatState
    [⟨"xyz", .num 0, .int 1⟩] (by decide)

/-- Witness for the C3 theorem at a concrete input. -/
theorem addToCart_unique_lines_c3_witness :
    addToCart [] ⟨"p1", "Latte", 5, ""⟩ 2 = [⟨⟨"p1", "Latte", 5, ""⟩, 2⟩]
    ∧ ((addToCart [] ⟨"p1", "Latte", 5, ""⟩ 2).map fun c => c.product.id).Nodup :=
  ⟨((addToCart_unique_lines_c3.1 [] ⟨"p1", "Latte", 5, ""⟩ 2 (by decide)).1
      (by decide)).trans (by decide),
   addToCart_unique_lines_c3.2 _
     (ReachableCart.add [] ⟨"p1", "Latte", 5, ""⟩ 2 ReachableCart.nil)⟩

/-- Witness for the C4 theorem at concrete inputs. -/
theorem quantityNormalization_c4_witness :
    normQtyInt (.int 3) = 3
    ∧ extractOrderFromMemory (.obj [("output", .obj [("memory", .obj [("order",
        .arr [.obj [("item", .str "Latte"), ("quantity", .num (-2))]])])])])
        = [⟨"Latte", .num 0, .int (-2)⟩] :=
  ⟨quantityNormalization_c4.1 3 (by decide),
   quantityNormalization_c4.2.2.2.1 "Latte" (-2) (by decide) (by decide)⟩

/-- Witness for the C6 theorem at concrete inputs. -/
theorem handleSendMessage_reply_c6_witness :
    handleSendMessage [] initialChatState (fun _ => 0) "hi" .threw = some apologyMessage
    ∧ handleSendMessage [] initialChatState (fun _ => 0) "zzz" (.ok "" .null)
        = some fallbackMessage :=
  ⟨handleSendMessage_reply_c6.1 [] initialChatState (fun _ => 0) "hi"
      (by decide) (by decide),
   handleSendMessage_reply_c6.2.2 [] initialChatState (fun _ => 0) "zzz" "" .null
      (by decide) (by decide) rfl (by decide) (by decide) (by decide) (by decide)⟩

/-- Witness for the C7 theorem at a concrete input. -/
theorem generateRecommendationResponse_deterministic_c7_witness :
    List.Sorted (fun a b : Product => b.price ≤ a.price)
      (popularItems [⟨"1", "Americano", 3, ""⟩, ⟨"2", "Cold Brew", 5, ""⟩]) :=
  (generateRecommendationResponse_deterministic_c7
    [⟨"1", "Americano", 3, ""⟩, ⟨"2", "Cold Brew", 5, ""⟩] 0 7 (by decide)).2.2.1

/-- Witness for the C8 theorem at a concrete input. -/
theorem pollJobStatus_bounded_c8_witness :
    pollJobStatus (fun _ => .ok (.obj [("status", .str "COMPLETED")])) 150
      = (.completed (.obj [("status", .str "COMPLETED")]), 1) :=
  (pollJobStatus_bounded_c8 (fun _ => .ok (.obj [("status", .str "COMPLETED")]))
      150).2.2.2.1 0 (.obj [("status", .str "COMPLETED")])
    (by decide) (fun i hi => absurd hi (by omega)) rfl rfl

/-- Witness for the C9 theorem at concrete inputs. -/
theorem extractOrderFromMemory_sanitizes_c9_witness :
    (("Latte" : String) ≠ "" ∧ jsTrim "Latte" ≠ "")
    ∧ extractOrderFromMemory .null = [] :=
  ⟨(extractOrderFromMemory_sanitizes_c9
        (.obj [("memory", .obj [("order", .arr [.obj [("item", .str "Latte")]])])])).1
      ⟨"Latte", .num 0, .int 1⟩
      (by
        rw [show extractOrderFromMemory
            (.obj [("memory", .obj [("order", .arr [.obj [("item", .str "Latte")]])])])
            = [⟨"Latte", .num 0, .int 1⟩] from rfl]
        exact List.mem_singleton_self _),
   (extractOrderFromMemory_sanitizes_c9 .null).2 rfl⟩

/-- Witness for the C10 theorem at concrete inputs. -/
theorem updateQuantity_c10_witness :
    updateQuantity [⟨⟨"p1", "Latte", 5, ""⟩, 2⟩] "p1" 0 = []
    ∧ updateQuantity [⟨⟨"p1", "Latte", 5, ""⟩, 2⟩] "p1" 7
        = [⟨⟨"p1", "Latte", 5, ""⟩, 7⟩] :=
  ⟨((updateQuantity_c10 [⟨⟨"p1", "Latte", 5, ""⟩, 2⟩] "p1" 0).1 (by decide)).trans
      (by decide),
   ((updateQuantity_c10 [⟨⟨"p1", "Latte", 5, ""⟩, 2⟩] "p1" 7).2.1 (by decide)).trans
      (by decide)⟩

end CoffeeChat
